import Mathlib

/-!
Verification of the Sortino swing-trading engine (`python_engine`).

Shallow embedding conventions: Python floats are modelled as exact rationals
(`ℚ`), Unix timestamps as integers (seconds), database tables as lists of
records, and every database-mutating function as a pure state transform
translated statement by statement from the source. Fallible behaviour is
modelled with `Option` and explicit status codes.
-/

/-! ## Reward function (model_manager.py, lines 26-44) -/

def DOWNSIDE_PENALTY_FACTOR : ℚ := 2

def DOWNSIDE_SQUARED : Bool := true

def OPPORTUNITY_COST_PENALTY : ℚ := -(1/1000)

/-- Embedding of `_sortino_reward` (model_manager.py lines 30-44): opportunity
cost for a flat return, positive returns unchanged, negative returns squared
and scaled through the magnitude `mag = abs raw_reward`. -/
def sortino_reward (raw_reward : ℚ) : ℚ :=
  if raw_reward = 0 then OPPORTUNITY_COST_PENALTY
  else if raw_reward > 0 then raw_reward
  else
    let mag := |raw_reward|
    if DOWNSIDE_SQUARED then -(DOWNSIDE_PENALTY_FACTOR * mag ^ 2)
    else raw_reward * DOWNSIDE_PENALTY_FACTOR

/-! ## Model version registry (model_manager.py)

Rows of the `model_versions` table. The column set is taken from the INSERT in
`save_model_version` plus the `strategy` column, which the table schema carries
per the specification data model (schema.sql is outside the engine sources;
`should_full_retrain` in retrain.py queries the column directly). Only the
columns the claims mention are kept; metric columns do not affect any claim. -/

structure ModelVersionRow where
  version_number : Nat
  model_path : String
  training_type : String
  strategy : Option String
  is_active : Bool
  created_at : Int
  deriving DecidableEq

/-- Embedding of the query SELECT COALESCE(MAX(version_number), 0) + 1. -/
def next_version_number (rows : List ModelVersionRow) : Nat :=
  (rows.map (fun r => r.version_number)).foldl max 0 + 1

/-- Embedding of the statement UPDATE model_versions SET is_active = FALSE,
which carries no WHERE clause: every row of every strategy is deactivated. -/
def deactivate_all (rows : List ModelVersionRow) : List ModelVersionRow :=
  rows.map (fun r => { r with is_active := false })

/-- Embedding of the committed effect of `save_model_version` (model_manager.py
lines 108-183) on the `model_versions` table: compute the next version number,
deactivate all rows, append the new row as active. The artifact write and the
metric computation are omitted (they never touch `is_active`), and the INSERT
names no `strategy` column, so the new row carries `none`. Returns the new
table and the version number. -/
def save_model_version (rows : List ModelVersionRow) (training_type : String)
    (now : Int) : List ModelVersionRow × Nat :=
  let v := next_version_number rows
  let filename := "dow30_model_v" ++ toString v ++ ".zip"
  (deactivate_all rows ++ [⟨v, filename, training_type, none, true, now⟩], v)

/-- Embedding of `rollback_model` (model_manager.py lines 320-362): if no row
has the requested version number, return unchanged with `false`; otherwise
deactivate all rows and activate those whose version number matches. -/
def rollback_model (rows : List ModelVersionRow) (version_number : Nat) :
    List ModelVersionRow × Bool :=
  if rows.any (fun r => r.version_number == version_number) then
    (rows.map (fun r => { r with is_active := r.version_number == version_number }), true)
  else (rows, false)

/-- Number of rows of the table whose `is_active` flag is set. -/
def count_active (rows : List ModelVersionRow) : Nat :=
  (rows.filter (fun r => r.is_active)).length

/-- Embedding of the query SELECT model_path, version_number FROM model_versions
WHERE is_active = TRUE ORDER BY created_at DESC LIMIT 1 (fetchone). -/
def select_active_row (rows : List ModelVersionRow) : Option ModelVersionRow :=
  (rows.filter (fun r => r.is_active)).foldl
    (fun acc r =>
      match acc with
      | none => some r
      | some a => if a.created_at < r.created_at then some r else acc) none

def default_model_path : String := "dow30_model.zip"

/-- Embedding of `get_latest_model` (model_manager.py lines 52-105), returning
the artifact path it would load (the PPO.load call is elided) or `none`.
`tableAvailable = false` models the psycopg2.Error branch where the
model_versions table cannot be queried; `files` is the set of artifact file
paths present on disk. -/
def get_latest_model (tableAvailable : Bool) (rows : List ModelVersionRow)
    (files : List String) : Option String :=
  if !tableAvailable then
    if files.contains default_model_path then some default_model_path else none
  else
    match select_active_row rows with
    | some r =>
        if files.contains r.model_path then some r.model_path
        else if files.contains default_model_path then some default_model_path
        else none
    | none =>
        if files.contains default_model_path then some default_model_path
        else none

/-! ## Experience store (trade.py) -/

/-- Row of the `training_experiences` table, columns as used by the engine. -/
structure Experience where
  ticker : String
  account_id : Nat
  observation : List ℚ
  action : Nat
  trade_id : Option Nat
  is_completed : Bool
  reward : Option ℚ
  deriving DecidableEq

/-- Embedding of the row inserted by `collect_experience` (trade.py lines
178-221): `is_completed` is set exactly when a trade id is known at insert
time, and the INSERT column list carries no `reward`, so the new row has a
NULL reward. -/
def collect_experience (ticker : String) (account_id : Nat) (observation : List ℚ)
    (action : Nat) (trade_id : Option Nat) : Experience :=
  ⟨ticker, account_id, observation, action, trade_id, trade_id.isSome, none⟩

/-- Embedding of `update_experience_reward` (trade.py lines 224-244): sets the
reward and the completion flag on the addressed row. -/
def update_experience_reward (e : Experience) (reward : ℚ) (is_completed : Bool) :
    Experience :=
  { e with reward := some reward, is_completed := is_completed }

/-- The invariant of the specification: the reward is non-null exactly when the
row is marked completed. -/
def reward_completion_invariant (e : Experience) : Bool :=
  e.reward.isSome == e.is_completed

/-! ## Trades (trade.py) -/

/-- Row of the `trades` table, columns the claims need. -/
structure TradeRow where
  id : Nat
  price : ℚ
  quantity : ℚ
  pnl : Option ℚ
  sell_trade_id : Option Nat
  deriving DecidableEq

/-- Lookup of a trade row by primary key (JOIN ... ON id). -/
def find_trade (trades : List TradeRow) (i : Nat) : Option TradeRow :=
  trades.find? (fun t => t.id == i)

/-- Python numeric truthiness, as in the guard if buy_price and sell_price and
quantity of retrain.py: a float is truthy exactly when it is non-zero. -/
def py_truthy (q : ℚ) : Bool := q != 0

/-- Embedding of the per-row effect of `update_incomplete_experiences`
(retrain.py lines 143-188) on one experience: the SQL selects rows with
`is_completed = FALSE` whose buy trade (joined on `trade_id`) has a linked
closing trade (`sell_trade_id` resolves) and a non-null `pnl`; for selected
rows with truthy buy price, sell price and quantity, the reward is recomputed
from the price pair and the row is marked completed. All other rows are left
untouched. -/
def reconcile_step (reward_fn : ℚ → ℚ) (trades : List TradeRow) (e : Experience) :
    Experience :=
  if e.is_completed then e
  else
    match e.trade_id with
    | none => e
    | some tid =>
      match find_trade trades tid with
      | none => e
      | some t_buy =>
        match t_buy.sell_trade_id with
        | none => e
        | some sid =>
          match find_trade trades sid with
          | none => e
          | some t_sell =>
            if t_buy.pnl.isSome then
              if py_truthy t_buy.price && py_truthy t_sell.price &&
                  py_truthy t_buy.quantity then
                { e with
                  reward := some (reward_fn ((t_sell.price - t_buy.price) / t_buy.price)),
                  is_completed := true }
              else e
            else e

/-- Embedding of one full `update_incomplete_experiences` sweep: the per-row
reconciliation applied across the experience table (rows are addressed by
their serial primary key, so the sweep acts row-wise). Trades are read-only. -/
def update_incomplete_experiences (reward_fn : ℚ → ℚ) (exps : List Experience)
    (trades : List TradeRow) : List Experience :=
  exps.map (reconcile_step reward_fn trades)

/-! ## Closing a long position (trade.py, lines 401-440) -/

/-- Embedding of the PnL computed when a SELL decision closes a long position:
pnl = (current_price - buy_price) * min(close_qty, buy_qty). -/
def close_long_pnl (buy_price current_price close_qty buy_qty : ℚ) : ℚ :=
  (current_price - buy_price) * min close_qty buy_qty

/-- Embedding of `calculate_trade_reward` (trade.py lines 248-270): guard
against non-positive entry price or quantity, then the Sortino-shaped reward
of the return percentage. -/
def calculate_trade_reward (buy_price sell_price quantity : ℚ) : ℚ :=
  if buy_price ≤ 0 ∨ quantity ≤ 0 then 0
  else sortino_reward ((sell_price - buy_price) / buy_price)

/-! ## Retrain decision (retrain.py) -/

/-- Embedding of the query of `should_full_retrain` (retrain.py lines 305-341):
creation time of the most recent row with training_type = full_retrain and a
matching strategy (the primary query path; the fallback without the strategy
filter fires only when the schema lacks the column). -/
def last_full_retrain_at (rows : List ModelVersionRow) (strategy : String) :
    Option Int :=
  (rows.filter (fun r => r.training_type == "full_retrain" &&
      r.strategy == some strategy)).foldl
    (fun acc r =>
      match acc with
      | none => some r.created_at
      | some t => if t < r.created_at then some r.created_at else acc) none

/-- Embedding of the decision of `should_full_retrain`: retrain when no prior
full retrain exists, otherwise when at least 7 days (604800 seconds) have
elapsed — days_since = (now - last)/86400 and days_since >= 7 is equivalent to
the integer inequality used here. -/
def should_full_retrain (rows : List ModelVersionRow) (strategy : String)
    (now : Int) : Bool :=
  match last_full_retrain_at rows strategy with
  | none => true
  | some t => 7 * 86400 ≤ now - t

/-- Embedding of the per-invocation decision of retrain.py main (lines
379-402): with no active model the run trains initially; otherwise a weekly
full retrain; otherwise an online update when completed experiences are
available to load; otherwise the run returns before `save_model_version` is
reached. The result is the training_type of the version that gets saved, or
`none` when the run skips without saving. -/
def retrain_decision (modelExists : Bool) (rows : List ModelVersionRow)
    (strategy : String) (now : Int) (loadedExperiences : List Experience) :
    Option String :=
  if !modelExists then some "initial"
  else if should_full_retrain rows strategy now then some "full_retrain"
  else if !loadedExperiences.isEmpty then some "online"
  else none

/-! ## Prediction endpoint (model_api.py) -/

/-- Substring test over the underlying character lists (used to embed the
Python `in` checks on exception messages). -/
def str_contains_sub (s pat : String) : Bool :=
  (List.range (s.toList.length + 1)).any
    (fun i => pat.toList.isPrefixOf (s.toList.drop i))

/-- Keywords of the generic exception handler of predict (model_api.py lines
305-308), checked on the lowercased message. -/
def conn_keywords : List String := ["broken pipe", "connection", "curl", "fetch"]

/-- Embedding of the generic exception handler of predict (model_api.py lines
298-309): 503 when the exception is connection-like (ConnectionError, OSError
or RequestException) or its lowercased message holds a connection keyword,
otherwise 500. -/
def exception_status (isConnLike : Bool) (lowerMsg : String) : Nat :=
  if isConnLike || conn_keywords.any (fun k => str_contains_sub lowerMsg k) then 503
  else 500

/-- Lowercased message of the NameError raised at model_api.py line 237, where
the handler evaluates MODEL.predict: the module binds MODELS (the dict) and
model (the local), but the name MODEL is bound nowhere, so reaching that line
raises NameError with message "name MODEL is not defined" (quotes of the
original message elided). A NameError is none of ConnectionError, OSError,
RequestException. -/
def model_name_error_msg : String := "name model is not defined"

/-- Embedding of the control flow of the predict handler (model_api.py lines
155-309). Inputs: the stripped upper-cased ticker; whether a model is loaded
for the resolved strategy and for the sortino fallback (line 172 reads
MODELS.get(strategy) or MODELS.get(sortino)); and the sanitized market data as
`none` for invalid data or `some n` for a frame of `n` rows. The download is
assumed to succeed (its failure paths are outside this claim). Returns the
HTTP status code of the response. -/
def predict_status (ticker : String) (strategyLoaded sortinoLoaded : Bool)
    (sanitized : Option Nat) : Nat :=
  if ticker = "" then 400
  else if !(strategyLoaded || sortinoLoaded) then 503
  else
    match sanitized with
    | none => 400
    | some n =>
        if n < 15 then 400
        else exception_status false model_name_error_msg

/-! ## Module surface of model_manager.py and the training entry points

Names bound at the top level of model_manager.py (its imports, module
constants and function definitions), the from-import lists of train.py and
retrain.py, and the parameter lists of the registry functions, all read off
the sources. In Python, from module import name raises ImportError when the
module has no attribute of that name, and calling a function that declares no
keyword splat with an unexpected keyword argument raises TypeError. -/

def model_manager_attrs : List String :=
  ["os", "json", "psycopg2", "PPO", "Optional", "Dict", "List", "Tuple",
   "datetime", "load_dotenv", "_load_dirs", "_d", "_e",
   "DOWNSIDE_PENALTY_FACTOR", "DOWNSIDE_SQUARED", "OPPORTUNITY_COST_PENALTY",
   "_sortino_reward", "get_db_connection", "get_latest_model",
   "save_model_version", "get_model_performance", "list_model_versions",
   "rollback_model"]

/-- The from-import list of retrain.py lines 19-22. -/
def retrain_imports : List String :=
  ["get_latest_model", "save_model_version", "get_model_performance",
   "get_db_connection", "get_reward_function"]

/-- The from-import list of train.py line 11. -/
def train_imports : List String := ["save_model_version", "get_reward_function"]

/-- Outcome of loading a script module: the top-level from-import either fails
on the first missing attribute (before any later statement of the script, in
particular before any training work), or the body proceeds. -/
inductive ScriptStart where
  | importError (missing : String)
  | bodyRuns
  deriving DecidableEq

/-- Embedding of the top-level from-import of a training script. -/
def script_start (moduleAttrs imports : List String) : ScriptStart :=
  match imports.find? (fun n => !moduleAttrs.contains n) with
  | some n => .importError n
  | none => .bodyRuns

/-- Parameter list of `get_latest_model` (model_manager.py line 52). -/
def get_latest_model_params : List String := ["database_url", "model_dir"]

/-- Parameter list of `save_model_version` (model_manager.py lines 108-115). -/
def save_model_version_params : List String :=
  ["model", "database_url", "model_dir", "training_type", "total_experiences",
   "notes"]

/-- A Python def without a keyword splat accepts a keyword argument exactly
when the name is among its declared parameters. -/
def accepts_keyword (params : List String) (kw : String) : Bool :=
  params.contains kw

/-! ## Theorems -/

/-- C1: for every return value, the sortino reward function returns the fixed
opportunity-cost constant -0.001 on a flat return, the return unchanged when
it is positive, and -(2.0 * raw_return^2) when it is negative (default
constants). -/
theorem sortino_reward_cases (x : ℚ) :
    sortino_reward x =
      if x = 0 then -(1/1000) else if 0 < x then x else -(2 * x ^ 2) := by
  rcases eq_or_ne x 0 with h | h
  · simp [sortino_reward, h, OPPORTUNITY_COST_PENALTY]
  · rcases h.lt_or_lt with hneg | hpos
    · simp [sortino_reward, h, hneg.not_lt, DOWNSIDE_SQUARED,
        DOWNSIDE_PENALTY_FACTOR, sq_abs]
    · simp [sortino_reward, h, hpos]

theorem count_active_deactivate_all (rows : List ModelVersionRow) :
    count_active (deactivate_all rows) = 0 := by
  simp [deactivate_all, count_active]

theorem count_active_append (a b : List ModelVersionRow) :
    count_active (a ++ b) = count_active a + count_active b := by
  simp [count_active]

theorem count_active_map_activate (rows : List ModelVersionRow) (v : Nat) :
    count_active
        (rows.map (fun r => { r with is_active := r.version_number == v })) =
      (rows.map (fun r => r.version_number)).count v := by
  have h : (rows.map (fun r => r.version_number)).count v
      = List.countP (fun n => n == v) (rows.map (fun r => r.version_number)) := rfl
  rw [h, List.countP_map]
  simp only [count_active, ← List.countP_eq_length_filter, List.countP_map]
  rfl

/-- C2: after a successful activation of a version (save_model_version
committing a new active row, rollback_model switching to an existing version
number), exactly one row of the table has is_active = true, whatever the prior
active flags were; since activation deactivates every row of the table, the
count is one both globally and for the strategy of the activated row. The
rollback part assumes the version numbers of the table are distinct, which is
how save_model_version allocates them (global max + 1). -/
theorem activation_exactly_one_active :
    (∀ (rows : List ModelVersionRow) (training_type : String) (now : Int),
        count_active (save_model_version rows training_type now).1 = 1) ∧
    (∀ (rows : List ModelVersionRow) (v : Nat),
        (rows.map (fun r => r.version_number)).Nodup →
        (rollback_model rows v).2 = true →
        count_active (rollback_model rows v).1 = 1) := by
  constructor
  · intro rows training_type now
    show count_active (deactivate_all rows ++ [_]) = 1
    rw [count_active_append, count_active_deactivate_all]
    rfl
  · intro rows v hnodup hsucc
    by_cases hany : rows.any (fun r => r.version_number == v)
    · have hmem : v ∈ rows.map (fun r => r.version_number) := by
        rcases List.any_eq_true.mp hany with ⟨r, hr, hv⟩
        exact List.mem_map.mpr ⟨r, hr, by simpa using hv⟩
      simp only [rollback_model, hany, if_true]
      rw [count_active_map_activate]
      exact List.count_eq_one_of_mem hnodup hmem
    · simp [rollback_model, hany] at hsucc

/-- Witness for C2 at a corrupted table with two simultaneously active rows:
both a save and a rollback leave exactly one active row. -/
theorem activation_exactly_one_active_witness :
    count_active (save_model_version
        [⟨1, "a.zip", "initial", none, true, 0⟩,
         ⟨2, "b.zip", "online", none, true, 5⟩] "online" 9).1 = 1 ∧
    (([⟨1, "a.zip", "initial", none, true, 0⟩,
       ⟨2, "b.zip", "online", none, true, 5⟩] :
        List ModelVersionRow).map (fun r => r.version_number)).Nodup ∧
    (rollback_model
        [⟨1, "a.zip", "initial", none, true, 0⟩,
         ⟨2, "b.zip", "online", none, true, 5⟩] 1).2 = true ∧
    count_active (rollback_model
        [⟨1, "a.zip", "initial", none, true, 0⟩,
         ⟨2, "b.zip", "online", none, true, 5⟩] 1).1 = 1 :=
  ⟨activation_exactly_one_active.1
      [⟨1, "a.zip", "initial", none, true, 0⟩,
       ⟨2, "b.zip", "online", none, true, 5⟩] "online" 9,
   by decide, by decide,
   activation_exactly_one_active.2
      [⟨1, "a.zip", "initial", none, true, 0⟩,
       ⟨2, "b.zip", "online", none, true, 5⟩] 1 (by decide) (by decide)⟩

/-- C3: the claim that activation leaves rows of other strategies untouched
fails on the code: the deactivation statement carries no strategy filter, so
an active row of a different strategy loses its flag. Concretely, with one
active full_retrain row of strategy upside in the table, a save (of a sortino
retrain, whose INSERT records no strategy) and a rollback to another version
both flip that row to inactive. -/
theorem activation_touches_other_strategies :
    (save_model_version
        [⟨1, "dow30_upside_model_v1.zip", "full_retrain", some "upside",
          true, 0⟩] "online" 7).1 =
      [⟨1, "dow30_upside_model_v1.zip", "full_retrain", some "upside",
        false, 0⟩,
       ⟨2, "dow30_model_v2.zip", "online", none, true, 7⟩] ∧
    (rollback_model
        [⟨1, "dow30_upside_model_v1.zip", "full_retrain", some "upside",
          true, 0⟩,
         ⟨2, "p2.zip", "initial", some "sortino", false, 1⟩] 2).1 =
      [⟨1, "dow30_upside_model_v1.zip", "full_retrain", some "upside",
        false, 0⟩,
       ⟨2, "p2.zip", "initial", some "sortino", true, 1⟩] := by
  constructor <;> rfl

/-- C4: the 400 and 503 validation branches of the predict handler respond as
claimed, but a request that passes them never reaches a success response: line
237 evaluates the unbound name MODEL, the NameError reaches the generic
handler, its message holds no connection keyword, and the response is 500.
Evaluated at an empty ticker, at a request with no model loaded for either the
strategy or the sortino fallback, at invalid data, at a 10-row frame, and at a
fully valid request (ticker AAPL, sortino model loaded, 30 rows). -/
theorem predict_valid_request_gets_500 :
    predict_status "" true true (some 30) = 400 ∧
    predict_status "AAPL" false false (some 30) = 503 ∧
    predict_status "AAPL" true true none = 400 ∧
    predict_status "AAPL" true true (some 10) = 400 ∧
    predict_status "AAPL" true true (some 30) = 500 := by
  refine ⟨rfl, rfl, rfl, rfl, ?_⟩
  decide

/-- C5 counterexample: the claim fails at an experience inserted with a known
trade id — the INSERT marks the row completed but writes no reward, so the row
has is_completed = true with a null reward. -/
theorem collect_with_trade_id_breaks_invariant :
    reward_completion_invariant (collect_experience "AAPL" 1 [] 1 (some 7)) =
      false := rfl

/-- C5 amended: rows inserted at decision time without a trade id satisfy the
reward-completion biconditional (incomplete, null reward), and rows mutated by
the reward backfill with is_completed = true satisfy it (reward set, row
completed); a row inserted with a known trade id violates it (see the
counterexample). -/
theorem reward_iff_completed :
    (∀ (ticker : String) (account_id : Nat) (observation : List ℚ)
        (action : Nat),
        reward_completion_invariant
          (collect_experience ticker account_id observation action none) =
          true) ∧
    (∀ (e : Experience) (reward : ℚ),
        reward_completion_invariant
          (update_experience_reward e reward true) = true) := by
  exact ⟨fun _ _ _ _ => rfl, fun _ _ => rfl⟩

/-- C6: the retrain decision per invocation — no active model gives initial
training; an active model with the last full retrain at least 7 days old gives
a full retrain; an active model, a last full retrain under 7 days old and no
completed experiences to load gives a skip, returning before any version is
saved. -/
theorem retrain_decision_cases :
    (∀ (rows : List ModelVersionRow) (strategy : String) (now : Int)
        (exps : List Experience),
        retrain_decision false rows strategy now exps = some "initial") ∧
    (∀ (rows : List ModelVersionRow) (strategy : String) (now : Int)
        (exps : List Experience) (t : Int),
        last_full_retrain_at rows strategy = some t →
        7 * 86400 ≤ now - t →
        retrain_decision true rows strategy now exps = some "full_retrain") ∧
    (∀ (rows : List ModelVersionRow) (strategy : String) (now : Int) (t : Int),
        last_full_retrain_at rows strategy = some t →
        now - t < 7 * 86400 →
        retrain_decision true rows strategy now [] = none) := by
  refine ⟨fun _ _ _ _ => rfl, ?_, ?_⟩
  · intro rows strategy now exps t hlast hge
    simp [retrain_decision, should_full_retrain, hlast]
    omega
  · intro rows strategy now t hlast hlt
    simp [retrain_decision, should_full_retrain, hlast, not_le.mpr hlt]
    omega

/-- Witness for C6 at a table holding one full retrain of strategy sortino
created at time 0: initial at a missing model, full retrain at day 7, skip at
100 seconds with nothing to load. -/
theorem retrain_decision_cases_witness :
    retrain_decision false [] "sortino" 0 [] = some "initial" ∧
    last_full_retrain_at
        [⟨1, "p.zip", "full_retrain", some "sortino", true, 0⟩] "sortino" =
      some 0 ∧
    (7 : Int) * 86400 ≤ 604800 - 0 ∧
    retrain_decision true
        [⟨1, "p.zip", "full_retrain", some "sortino", true, 0⟩] "sortino"
        604800 [] = some "full_retrain" ∧
    (100 : Int) - 0 < 7 * 86400 ∧
    retrain_decision true
        [⟨1, "p.zip", "full_retrain", some "sortino", true, 0⟩] "sortino"
        100 [] = none :=
  ⟨retrain_decision_cases.1 [] "sortino" 0 [], by decide, by decide,
   retrain_decision_cases.2.1
     [⟨1, "p.zip", "full_retrain", some "sortino", true, 0⟩] "sortino"
     604800 [] 0 (by decide) (by decide),
   by decide,
   retrain_decision_cases.2.2
     [⟨1, "p.zip", "full_retrain", some "sortino", true, 0⟩] "sortino"
     100 0 (by decide) (by decide)⟩

/-- C7: both training entry points fail at their top-level from-import — the
name get_reward_function is not an attribute of model_manager — so neither
script reaches any training work; and independently, the signatures of
get_latest_model and save_model_version accept no strategy keyword, so the
calls both scripts make with strategy=... would raise TypeError even past the
import. -/
theorem training_scripts_fail_at_import :
    script_start model_manager_attrs train_imports =
      .importError "get_reward_function" ∧
    script_start model_manager_attrs retrain_imports =
      .importError "get_reward_function" ∧
    accepts_keyword get_latest_model_params "strategy" = false ∧
    accepts_keyword save_model_version_params "strategy" = false := by
  decide

/-- C8: the ordered fallback of the model loader — with a usable registry
whose selected active row names an existing artifact, that artifact is
returned; with an empty or unavailable registry and the default artifact on
disk, the default is returned; with an empty or unavailable registry and no
default artifact, nothing is returned. -/
theorem get_latest_model_resolution :
    (∀ (rows : List ModelVersionRow) (files : List String)
        (r : ModelVersionRow),
        select_active_row rows = some r →
        files.contains r.model_path = true →
        get_latest_model true rows files = some r.model_path) ∧
    (∀ (tableAvailable : Bool) (rows : List ModelVersionRow)
        (files : List String),
        (tableAvailable = false ∨ rows = []) →
        files.contains default_model_path = true →
        get_latest_model tableAvailable rows files = some default_model_path) ∧
    (∀ (tableAvailable : Bool) (rows : List ModelVersionRow)
        (files : List String),
        (tableAvailable = false ∨ rows = []) →
        files.contains default_model_path = false →
        get_latest_model tableAvailable rows files = none) := by
  refine ⟨?_, ?_, ?_⟩
  · intro rows files r hsel hfile
    have hfile' : r.model_path ∈ files := by simpa using hfile
    simp [get_latest_model, hsel, hfile']
  · intro tableAvailable rows files hcase hfile
    have hfile' : default_model_path ∈ files := by simpa using hfile
    rcases hcase with h | h
    · subst h; simp [get_latest_model, hfile']
    · subst h
      cases tableAvailable <;>
        simp [get_latest_model, select_active_row, hfile']
  · intro tableAvailable rows files hcase hfile
    have hfile' : default_model_path ∉ files := by simpa using hfile
    rcases hcase with h | h
    · subst h; simp [get_latest_model, hfile']
    · subst h
      cases tableAvailable <;>
        simp [get_latest_model, select_active_row, hfile']

/-- Witness for C8: a one-row registry whose artifact is on disk resolves to
that artifact; an unavailable registry with only the default on disk resolves
to the default; an empty registry with an empty disk resolves to nothing. -/
theorem get_latest_model_resolution_witness :
    select_active_row [⟨3, "dow30_model_v3.zip", "online", none, true, 2⟩] =
      some ⟨3, "dow30_model_v3.zip", "online", none, true, 2⟩ ∧
    (["dow30_model_v3.zip"].contains "dow30_model_v3.zip") = true ∧
    get_latest_model true [⟨3, "dow30_model_v3.zip", "online", none, true, 2⟩]
        ["dow30_model_v3.zip"] = some "dow30_model_v3.zip" ∧
    get_latest_model false [] ["dow30_model.zip"] = some "dow30_model.zip" ∧
    get_latest_model true [] [] = none :=
  ⟨by decide, by decide,
   get_latest_model_resolution.1
     [⟨3, "dow30_model_v3.zip", "online", none, true, 2⟩]
     ["dow30_model_v3.zip"]
     ⟨3, "dow30_model_v3.zip", "online", none, true, 2⟩ (by decide) (by decide),
   get_latest_model_resolution.2.1 false [] ["dow30_model.zip"]
     (Or.inl rfl) (by decide),
   get_latest_model_resolution.2.2 true [] [] (Or.inr rfl) (by decide)⟩

theorem reconcile_step_of_completed (reward_fn : ℚ → ℚ) (trades : List TradeRow)
    (e : Experience) (h : e.is_completed = true) :
    reconcile_step reward_fn trades e = e := by
  simp [reconcile_step, h]

theorem reconcile_step_cases (reward_fn : ℚ → ℚ) (trades : List TradeRow)
    (e : Experience) :
    reconcile_step reward_fn trades e = e ∨
      (reconcile_step reward_fn trades e).is_completed = true := by
  unfold reconcile_step
  repeat' split
  all_goals first | exact Or.inl rfl | exact Or.inr rfl

/-- C9: the reconciliation sweep is idempotent — running it twice over any
experience table and trade table gives the state of one run, because a row it
mutates comes out completed and completed rows are never revisited, while
rows it leaves alone are left alone again. -/
theorem reconcile_idempotent (reward_fn : ℚ → ℚ) (exps : List Experience)
    (trades : List TradeRow) :
    update_incomplete_experiences reward_fn
        (update_incomplete_experiences reward_fn exps trades) trades =
      update_incomplete_experiences reward_fn exps trades := by
  unfold update_incomplete_experiences
  rw [List.map_map]
  refine List.map_congr_left ?_
  intro e _
  rcases reconcile_step_cases reward_fn trades e with h | h
  · simp [Function.comp, h]
  · show reconcile_step reward_fn trades (reconcile_step reward_fn trades e) =
      reconcile_step reward_fn trades e
    exact reconcile_step_of_completed reward_fn trades _ h

/-- C10: closing a long position books pnl = (exit - entry) * quantity and
backfills the Sortino reward of the return percentage (exit - entry) / entry;
at entry 100, exit 110, quantity 10 the pnl is 100 and the reward 0.10, and at
entry 100, exit 90, quantity 5 the pnl is -50 and the reward -0.02. -/
theorem close_long_reward_scenarios :
    (∀ b s q : ℚ, 0 < b → 0 < q →
        close_long_pnl b s q q = (s - b) * q ∧
        calculate_trade_reward b s q = sortino_reward ((s - b) / b)) ∧
    close_long_pnl 100 110 10 10 = 100 ∧
    calculate_trade_reward 100 110 10 = 1/10 ∧
    close_long_pnl 100 90 5 5 = -50 ∧
    calculate_trade_reward 100 90 5 = -(1/50) := by
  refine ⟨fun b s q hb hq => ⟨?_, ?_⟩, ?_, ?_, ?_, ?_⟩
  · simp [close_long_pnl]
  · simp [calculate_trade_reward, not_le.mpr hb, not_le.mpr hq]
  · norm_num [close_long_pnl]
  · norm_num [calculate_trade_reward, sortino_reward]
  · norm_num [close_long_pnl]
  · norm_num [calculate_trade_reward, sortino_reward, DOWNSIDE_SQUARED,
      DOWNSIDE_PENALTY_FACTOR]

/-- Witness for C10 at entry 100, exit 110, quantity 10. -/
theorem close_long_reward_scenarios_witness :
    (0 : ℚ) < 100 ∧ (0 : ℚ) < 10 ∧
    close_long_pnl 100 110 10 10 = (110 - 100) * 10 ∧
    calculate_trade_reward 100 110 10 = sortino_reward ((110 - 100) / 100) :=
  ⟨by decide, by decide,
   (close_long_reward_scenarios.1 100 110 10 (by decide) (by decide)).1,
   (close_long_reward_scenarios.1 100 110 10 (by decide) (by decide)).2⟩
